import Mathlib

/-!
Verification of the configuration-and-session layer of the bitly-mcp server
(`src/index.ts` and the mock SDK `src/mock-bitly-sdk.ts`).

The embedding models:
* the JavaScript values that flow through `parseConfigFromURL` (a `Json`
  inductive standing for `JSON.parse` results, with JS truthiness and
  property access);
* the external platform primitives the code calls — Node's WHATWG `URL`
  parser and `searchParams.get`, `Buffer.from(_, 'base64')`, UTF-8
  decoding, `JSON.parse`, `JSON.stringify` — as executable Lean functions
  faithful to the platform behaviour on the inputs under study;
* the module state of `index.ts` (`globalConfig`, `PROVIDERS`) as an
  explicit `ServerState` record threaded through the operations, with
  `new JsonRpcProvider` allocation modelled by a fresh-handle counter;
* `createSDK` and the state-mutating tool handlers, with external
  nondeterminism (ethers `Wallet` construction, the provider fee oracle,
  and the exchange-client delegate calls) supplied by an `Ext` record,
  and each handler additionally producing a trace of its observable
  effects.
-/

/-- JavaScript values as produced by `JSON.parse`.  Numbers keep their
source lexeme (the numeric value itself is never consulted by the code
under study beyond JS truthiness). -/
inductive Json where
  | null : Json
  | bool (b : Bool) : Json
  | num (lexeme : String) : Json
  | str (s : String) : Json
  | arr (elems : List Json) : Json
  | obj (fields : List (String × Json)) : Json

/-- A JSON number lexeme denotes zero iff all digits of its integer and
fraction parts are `0` (the exponent cannot make a zero nonzero). -/
def jsonNumIsZero (lexeme : String) : Bool :=
  let mantissa := lexeme.data.takeWhile (fun c => c ≠ 'e' ∧ c ≠ 'E')
  mantissa.all (fun c => c = '0' ∨ c = '-' ∨ c = '.')

/-- JS truthiness of a possibly-`undefined` value (`none` = `undefined`):
`undefined`, `null`, `false`, `""`, and numeric zero are falsy. -/
def jsTruthy : Option Json → Bool
  | none => false
  | some .null => false
  | some (.bool b) => b
  | some (.num lexeme) => ¬ jsonNumIsZero lexeme
  | some (.str s) => s ≠ ""
  | some (.arr _) => true
  | some (.obj _) => true

/-- JS property access `v[key]` on a parsed JSON value; `none` stands for
`undefined`.  Duplicate keys: the last occurrence wins, as in
`JSON.parse`.  (Access on a non-object yields `undefined` — property
access on `null` would throw in JS, but every call site sits under the
catch-all of `parseConfigFromURL`, where both paths end in the same
`null` result.) -/
def jsGet (v : Json) (key : String) : Option Json :=
  match v with
  | .obj fields => fields.foldl (fun acc kv => if kv.1 = key then some kv.2 else acc) none
  | _ => none

/-- String conversion used by JS template-literal interpolation; number
lexemes are kept verbatim (the code only embeds the `rpcApiKey`, a
string, so the difference from JS float formatting is unobservable). -/
def jsToDisplay : Option Json → String
  | none => "undefined"
  | some .null => "null"
  | some (.bool true) => "true"
  | some (.bool false) => "false"
  | some (.num lexeme) => lexeme
  | some (.str s) => s
  | some (.arr _) => ""
  | some (.obj _) => "[object Object]"

/-- Hex digit for `JSON.stringify` control-character escapes. -/
def hexDigit (n : Nat) : Char :=
  if n < 10 then Char.ofNat (48 + n) else Char.ofNat (87 + n)

/-- `JSON.stringify` escaping of one string character. -/
def jsonEscapeChar (c : Char) : List Char :=
  if c = '"' then ['\\', '"']
  else if c = '\\' then ['\\', '\\']
  else if c = '\n' then ['\\', 'n']
  else if c = '\r' then ['\\', 'r']
  else if c = '\t' then ['\\', 't']
  else if c = Char.ofNat 8 then ['\\', 'b']
  else if c = Char.ofNat 12 then ['\\', 'f']
  else if c.toNat < 32 then
    "\\u00".data ++ [hexDigit (c.toNat / 16), hexDigit (c.toNat % 16)]
  else [c]

/-- `JSON.stringify` of a string, with quotes. -/
def jsonStringifyString (s : String) : List Char :=
  '"' :: (s.data.flatMap jsonEscapeChar) ++ ['"']

mutual

/-- `JSON.stringify` of a parsed JSON value (object fields in insertion
order, as in V8; number lexemes verbatim). -/
def jsonStringifyChars : Json → List Char
  | .null => "null".data
  | .bool b => (if b then "true" else "false").data
  | .num lexeme => lexeme.data
  | .str s => jsonStringifyString s
  | .arr elems => '[' :: jsonStringifyArr elems ++ [']']
  | .obj fields => Char.ofNat 123 :: jsonStringifyObj fields ++ [Char.ofNat 125]

/-- Comma-separated serialization of array elements. -/
def jsonStringifyArr : List Json → List Char
  | [] => []
  | [v] => jsonStringifyChars v
  | v :: rest => jsonStringifyChars v ++ ',' :: jsonStringifyArr rest

/-- Comma-separated serialization of object fields. -/
def jsonStringifyObj : List (String × Json) → List Char
  | [] => []
  | [kv] => jsonStringifyString kv.1 ++ ':' :: jsonStringifyChars kv.2
  | kv :: rest =>
      jsonStringifyString kv.1 ++ ':' :: jsonStringifyChars kv.2 ++ ',' :: jsonStringifyObj rest

end

/-- `JSON.stringify` as a `String`-valued function. -/
def jsonStringify (v : Json) : String := String.mk (jsonStringifyChars v)

/-- UTF-8 continuation byte (`0x80`–`0xBF`). -/
def isUtf8Cont (b : Nat) : Bool := 0x80 ≤ b ∧ b ≤ 0xBF

/-- Lower bound of the first continuation byte after a given lead byte
(WHATWG UTF-8 decoder boundaries). -/
def utf8Cont2Lo (lead : Nat) : Nat :=
  if lead = 0xE0 then 0xA0 else if lead = 0xF0 then 0x90 else 0x80

/-- Upper bound of the first continuation byte after a given lead byte. -/
def utf8Cont2Hi (lead : Nat) : Nat :=
  if lead = 0xED then 0x9F else if lead = 0xF4 then 0x8F else 0xBF

/-- First continuation byte check, adjusted by the lead byte. -/
def utf8ContOkAfter (lead b : Nat) : Bool := utf8Cont2Lo lead ≤ b ∧ b ≤ utf8Cont2Hi lead

/-- U+FFFD, emitted by Node's UTF-8 decoder for invalid sequences. -/
def replacementChar : Char := Char.ofNat 0xFFFD

/-- One step of the WHATWG UTF-8 decoder: given the lead byte and the
bytes after it, returns the decoded character (U+FFFD on an invalid or
truncated sequence) and how many of the following bytes were consumed
(the failing byte itself is reconsumed). -/
def utf8Step (b : Nat) (rest : List Nat) : Char × Nat :=
  if b ≤ 0x7F then (Char.ofNat b, 0)
  else if 0xC2 ≤ b ∧ b ≤ 0xDF then
    match rest with
    | [] => (replacementChar, 0)
    | b2 :: _ =>
      if isUtf8Cont b2 then (Char.ofNat ((b - 0xC0) * 64 + (b2 - 0x80)), 1)
      else (replacementChar, 0)
  else if 0xE0 ≤ b ∧ b ≤ 0xEF then
    match rest with
    | [] => (replacementChar, 0)
    | b2 :: rest2 =>
      if utf8ContOkAfter b b2 then
        match rest2 with
        | [] => (replacementChar, 1)
        | b3 :: _ =>
          if isUtf8Cont b3 then
            (Char.ofNat ((b - 0xE0) * 4096 + (b2 - 0x80) * 64 + (b3 - 0x80)), 2)
          else (replacementChar, 1)
      else (replacementChar, 0)
  else if 0xF0 ≤ b ∧ b ≤ 0xF4 then
    match rest with
    | [] => (replacementChar, 0)
    | b2 :: rest2 =>
      if utf8ContOkAfter b b2 then
        match rest2 with
        | [] => (replacementChar, 1)
        | b3 :: rest3 =>
          if isUtf8Cont b3 then
            match rest3 with
            | [] => (replacementChar, 2)
            | b4 :: _ =>
              if isUtf8Cont b4 then
                (Char.ofNat ((b - 0xF0) * 262144 + (b2 - 0x80) * 4096 +
                  (b3 - 0x80) * 64 + (b4 - 0x80)), 3)
              else (replacementChar, 2)
          else (replacementChar, 1)
      else (replacementChar, 0)
  else (replacementChar, 0)

/-- Decoding loop for `utf8DecodeBytes`; structural recursion on a fuel
bound (each step consumes at least the lead byte, so `l.length` fuel is
always enough). -/
def utf8DecodeLoop : Nat → List Nat → List Char
  | 0, _ => []
  | _, [] => []
  | fuel + 1, b :: rest =>
    let s := utf8Step b rest
    s.1 :: utf8DecodeLoop fuel (rest.drop s.2)

/-- UTF-8 decoding of a byte sequence, as performed by
`Buffer.prototype.toString('utf-8')` (WHATWG decoder: invalid or
truncated sequences become U+FFFD). -/
def utf8DecodeBytes (l : List Nat) : List Char := utf8DecodeLoop l.length l

/-- UTF-8 encoding of one character (used when percent-decoding feeds
non-ASCII characters back into the byte stream). -/
def utf8EncodeChar (c : Char) : List Nat :=
  let n := c.toNat
  if n ≤ 0x7F then [n]
  else if n ≤ 0x7FF then [0xC0 + n / 64, 0x80 + n % 64]
  else if n ≤ 0xFFFF then [0xE0 + n / 4096, 0x80 + n / 64 % 64, 0x80 + n % 64]
  else [0xF0 + n / 262144, 0x80 + n / 4096 % 64, 0x80 + n / 64 % 64, 0x80 + n % 64]

/-- Value of a hex digit, if any. -/
def hexVal (c : Char) : Option Nat :=
  if 'a' ≤ c ∧ c ≤ 'f' then some (c.toNat - 87)
  else if 'A' ≤ c ∧ c ≤ 'F' then some (c.toNat - 55)
  else if '0' ≤ c ∧ c ≤ '9' then some (c.toNat - 48)
  else none

/-- Byte stream of `application/x-www-form-urlencoded` decoding: `+`
becomes a space, `%hh` a byte, anything else its UTF-8 bytes (an invalid
percent escape stays literal). -/
def formUrlDecodeBytes : List Char → List Nat
  | [] => []
  | '+' :: rest => 0x20 :: formUrlDecodeBytes rest
  | '%' :: c1 :: c2 :: rest =>
    match hexVal c1, hexVal c2 with
    | some h1, some h2 => (h1 * 16 + h2) :: formUrlDecodeBytes rest
    | _, _ => 0x25 :: formUrlDecodeBytes (c1 :: c2 :: rest)
  | c :: rest => utf8EncodeChar c ++ formUrlDecodeBytes rest

/-- `application/x-www-form-urlencoded` decoding of a component, as
`URLSearchParams` applies to keys and values. -/
def formUrlDecode (s : List Char) : String :=
  String.mk (utf8DecodeBytes (formUrlDecodeBytes s))

/-- ASCII letter. -/
def isAsciiAlpha (c : Char) : Bool := ('a' ≤ c ∧ c ≤ 'z') ∨ ('A' ≤ c ∧ c ≤ 'Z')

/-- Character allowed after the first character of a URL scheme. -/
def isSchemeTail (c : Char) : Bool :=
  isAsciiAlpha c ∨ ('0' ≤ c ∧ c ≤ '9') ∨ c = '+' ∨ c = '-' ∨ c = '.'

/-- Remainder after the scheme colon, if the input begins with a valid
scheme; scans scheme-tail characters until `:`. -/
def schemeRest : List Char → Option (List Char)
  | [] => none
  | c :: rest => if c = ':' then some rest
      else if isSchemeTail c then schemeRest rest else none

/-- Model of Node's WHATWG `new URL(s)` succeeding, reduced to what the
code observes: `some` of the characters after the scheme colon when `s`
begins with a valid scheme (`alpha (alphanumeric | + | - | .)* :`),
`none` when the constructor throws `TypeError: Invalid URL`.  (Further
WHATWG failure modes, e.g. an empty host after `https://`, are not
modelled; the inputs exercised here fail, when they fail, for lack of a
scheme.) -/
def urlAfterScheme (s : List Char) : Option (List Char) :=
  match s with
  | [] => none
  | c :: rest => if isAsciiAlpha c then schemeRest rest else none

/-- The `search` portion of a parsed URL, without its leading `?`:
everything after the first `?` that precedes any `#`; empty when there
is no `?`.  `none` when the URL constructor throws. -/
def urlQueryChars (s : String) : Option (List Char) :=
  match urlAfterScheme s.data with
  | none => none
  | some rest =>
    let beforeFrag := rest.takeWhile (fun c => c ≠ '#')
    some ((beforeFrag.dropWhile (fun c => c ≠ '?')).drop 1)

/-- Splits a character list on a separator (empty segments preserved). -/
def splitListOn (sep : Char) : List Char → List (List Char)
  | [] => [[]]
  | c :: rest =>
    let r := splitListOn sep rest
    if c = sep then [] :: r
    else match r with
      | h :: t => (c :: h) :: t
      | [] => [[c]]

/-- Key/value of one `k=v` (or bare `k`) pair, both form-decoded, split
at the first `=`. -/
def pairKeyVal (p : List Char) : String × String :=
  (formUrlDecode (p.takeWhile (fun c => c ≠ '=')),
   formUrlDecode ((p.dropWhile (fun c => c ≠ '=')).drop 1))

/-- Model of `url.searchParams.get(key)`: first value bound to `key` in
the query string, `none` when the key is absent. -/
def searchParamsGet (query : List Char) (key : String) : Option String :=
  let pairs := (splitListOn '&' query).filter (fun p => ¬ p.isEmpty)
  ((pairs.map pairKeyVal).find? (fun kv => kv.1 = key)).map (fun kv => kv.2)

/-- Base64 value of one alphabet character (`A`–`Z`, `a`–`z`, `0`–`9`,
`+`, `/`); `none` for everything else, which Node's forgiving decoder
skips. -/
def b64Val (c : Char) : Option Nat :=
  if 'a' ≤ c ∧ c ≤ 'z' then some (c.toNat - 71)
  else if 'A' ≤ c ∧ c ≤ 'Z' then some (c.toNat - 65)
  else if c = '+' then some 62
  else if c = '/' then some 63
  else if '0' ≤ c ∧ c ≤ '9' then some (c.toNat + 4)
  else none

/-- Reassembles 6-bit groups into bytes: 4 groups give 3 bytes, a final
3 give 2, a final 2 give 1, a lone leftover group is dropped. -/
def b64Groups : List Nat → List Nat
  | a :: b :: c :: d :: rest =>
    (a * 4 + b / 16) :: ((b % 16) * 16 + c / 4) :: ((c % 4) * 64 + d) :: b64Groups rest
  | [a, b, c] => [a * 4 + b / 16, (b % 16) * 16 + c / 4]
  | [a, b] => [a * 4 + b / 16]
  | _ => []

/-- Model of `Buffer.from(s, 'base64')`: Node's forgiving decoder, which
ignores non-alphabet characters (including `=` padding and whitespace)
and never throws. -/
def b64Decode (s : List Char) : List Nat := b64Groups (s.filterMap b64Val)

/-- JSON whitespace. -/
def jsonWs (c : Char) : Bool := c = ' ' ∨ c = '\r' ∨ c = '\n' ∨ c = '\t'

/-- Skips JSON whitespace. -/
def skipWs (s : List Char) : List Char := s.dropWhile jsonWs

/-- Single-character JSON string escapes. -/
def jsonEscDecode (e : Char) : Option Char :=
  if e = '"' ∨ e = '\\' ∨ e = '/' then some e
  else if e = 'n' then some '\n'
  else if e = 'r' then some '\r'
  else if e = 't' then some '\t'
  else if e = 'b' then some (Char.ofNat 8)
  else if e = 'f' then some (Char.ofNat 12)
  else none

/-- Parses the body of a JSON string literal after the opening quote;
returns the content and the remainder after the closing quote.  Raw
control characters and unknown escapes are rejected, as by `JSON.parse`.
(A `\uXXXX` escape denoting a surrogate half is mapped through
`Char.ofNat`; no input under study uses `\u` escapes.) -/
def jsonParseStringRest : List Char → Option (List Char × List Char)
  | [] => none
  | '"' :: rest => some ([], rest)
  | '\\' :: 'u' :: h1 :: h2 :: h3 :: h4 :: rest =>
    match hexVal h1, hexVal h2, hexVal h3, hexVal h4 with
    | some v1, some v2, some v3, some v4 =>
      (jsonParseStringRest rest).map
        (fun p => (Char.ofNat (v1 * 4096 + v2 * 256 + v3 * 16 + v4) :: p.1, p.2))
    | _, _, _, _ => none
  | '\\' :: e :: rest =>
    match jsonEscDecode e with
    | some c => (jsonParseStringRest rest).map (fun p => (c :: p.1, p.2))
    | none => none
  | c :: rest =>
    if c.toNat < 32 then none
    else (jsonParseStringRest rest).map (fun p => (c :: p.1, p.2))

/-- Decimal digit. -/
def isDigitChar (c : Char) : Bool := '0' ≤ c ∧ c ≤ '9'

/-- Optional fraction part of a JSON number (lexeme and remainder). -/
def jsonNumFrac (s : List Char) : Option (List Char × List Char) :=
  match s with
  | '.' :: r =>
    let fs := r.takeWhile isDigitChar
    if fs.isEmpty then none else some ('.' :: fs, r.drop fs.length)
  | _ => some ([], s)

/-- Optional exponent part of a JSON number (lexeme and remainder). -/
def jsonNumExp (s : List Char) : Option (List Char × List Char) :=
  match s with
  | [] => some ([], [])
  | c :: r =>
    if c = 'e' ∨ c = 'E' then
      let (sgn, r2) : List Char × List Char :=
        match r with
        | '+' :: rr => (['+'], rr)
        | '-' :: rr => (['-'], rr)
        | _ => ([], r)
      let es := r2.takeWhile isDigitChar
      if es.isEmpty then none else some (c :: sgn ++ es, r2.drop es.length)
    else some ([], s)

/-- Parses a JSON number per the `JSON.parse` grammar
(`-? (0 | [1-9][0-9]*) frac? exp?`), keeping its lexeme. -/
def jsonParseNumber (s : List Char) : Option (Json × List Char) :=
  let (neg, s1) : List Char × List Char :=
    match s with
    | '-' :: r => (['-'], r)
    | _ => ([], s)
  let ds := s1.takeWhile isDigitChar
  if ds.isEmpty then none
  else if ds.head? = some '0' ∧ ds.length ≠ 1 then none
  else
    match jsonNumFrac (s1.drop ds.length) with
    | none => none
    | some (frac, s2) =>
      match jsonNumExp s2 with
      | none => none
      | some (ex, s3) => some (Json.num (String.mk (neg ++ ds ++ frac ++ ex)), s3)

mutual

/-- Recursive-descent model of `JSON.parse`, value production.  The fuel
argument only bounds recursion depth; `jsonParse` supplies more than any
input can consume. -/
def jsonParseValue : Nat → List Char → Option (Json × List Char)
  | 0, _ => none
  | fuel + 1, s =>
    match skipWs s with
    | [] => none
    | c :: rest =>
      if c = '"' then
        (jsonParseStringRest rest).map (fun p => (Json.str (String.mk p.1), p.2))
      else if c = Char.ofNat 123 then jsonParseObjStart fuel rest
      else if c = '[' then jsonParseArrStart fuel rest
      else if c = 't' then
        if rest.take 3 = "rue".data then some (Json.bool true, rest.drop 3) else none
      else if c = 'f' then
        if rest.take 4 = "alse".data then some (Json.bool false, rest.drop 4) else none
      else if c = 'n' then
        if rest.take 3 = "ull".data then some (Json.null, rest.drop 3) else none
      else jsonParseNumber (c :: rest)

/-- Object production, right after the opening brace. -/
def jsonParseObjStart : Nat → List Char → Option (Json × List Char)
  | 0, _ => none
  | fuel + 1, s =>
    match skipWs s with
    | [] => none
    | c :: rest =>
      if c = Char.ofNat 125 then some (Json.obj [], rest)
      else jsonParsePairs fuel (c :: rest) []

/-- Nonempty member list of an object (fields accumulated in reverse). -/
def jsonParsePairs : Nat → List Char → List (String × Json) → Option (Json × List Char)
  | 0, _, _ => none
  | fuel + 1, s, acc =>
    match skipWs s with
    | [] => none
    | c :: rest =>
      if c = '"' then
        match jsonParseStringRest rest with
        | none => none
        | some (key, r1) =>
          match skipWs r1 with
          | ':' :: r2 =>
            match jsonParseValue fuel r2 with
            | none => none
            | some (v, r3) =>
              let acc' := (String.mk key, v) :: acc
              match skipWs r3 with
              | [] => none
              | d :: r4 =>
                if d = ',' then jsonParsePairs fuel r4 acc'
                else if d = Char.ofNat 125 then some (Json.obj acc'.reverse, r4)
                else none
          | _ => none
      else none

/-- Array production, right after the opening bracket. -/
def jsonParseArrStart : Nat → List Char → Option (Json × List Char)
  | 0, _ => none
  | fuel + 1, s =>
    match skipWs s with
    | [] => none
    | c :: rest =>
      if c = ']' then some (Json.arr [], rest)
      else jsonParseElems fuel (c :: rest) []

/-- Nonempty element list of an array (accumulated in reverse). -/
def jsonParseElems : Nat → List Char → List Json → Option (Json × List Char)
  | 0, _, _ => none
  | fuel + 1, s, acc =>
    match jsonParseValue fuel s with
    | none => none
    | some (v, r1) =>
      let acc' := v :: acc
      match skipWs r1 with
      | ',' :: r2 => jsonParseElems fuel r2 acc'
      | ']' :: r2 => some (Json.arr acc'.reverse, r2)
      | _ => none

end

/-- Model of `JSON.parse`: parses one value, requires the remainder to be
whitespace, `none` where `JSON.parse` throws a `SyntaxError`. -/
def jsonParse (s : String) : Option Json :=
  match jsonParseValue (s.length * 4 + 16) s.data with
  | some (v, rest) => if (skipWs rest).isEmpty then some v else none
  | none => none

/-- The `Config` interface of `index.ts`: both fields are declared
`string | undefined`, and through the unchecked `as Config` cast in
`parseConfigFromURL` a field may hold whatever JSON value the payload
supplied, so the model stores `Option Json` (`none` = `undefined`). -/
structure Config where
  WALLET_PRIVATE_KEY : Option Json
  INFURA_API_KEY : Option Json

/-- `parseConfigFromURL` (src/index.ts:16-39): parses the source as a
URL, reads the `config` query parameter, base64-decodes it, JSON-parses
the result, and validates that `WALLET_PRIVATE_KEY` and
`INFURA_API_KEY` are truthy.  Every failure — the `URL` constructor
throwing, a missing or empty parameter, a JSON syntax error, or the
explicit `throw` on missing fields — lands in the one `catch` block and
yields `null` (`none`); the function never throws. -/
def parseConfigFromURL (url : String) : Option Config :=
  match urlQueryChars url with
  | none => none
  | some query =>
    match searchParamsGet query "config" with
    | none => none
    | some configParam =>
      if configParam = "" then none
      else
        match jsonParse (String.mk (utf8DecodeBytes (b64Decode configParam.data))) with
        | none => none
        | some json =>
          if ¬ jsTruthy (jsGet json "WALLET_PRIVATE_KEY") ∨
              ¬ jsTruthy (jsGet json "INFURA_API_KEY") then none
          else some ⟨jsGet json "WALLET_PRIVATE_KEY", jsGet json "INFURA_API_KEY"⟩

/-- The ethers `FeeData` record; each field is `BigNumber | null`. -/
structure FeeData where
  lastBaseFeePerGas : Option Int
  maxFeePerGas : Option Int
  maxPriorityFeePerGas : Option Int
  gasPrice : Option Int
deriving Repr, DecidableEq

/-- `DEFAULT_NETWORK_ID` (src/index.ts:47), Base Sepolia. -/
def DEFAULT_NETWORK_ID : Nat := 84532

/-- `DEFAULT_BLOCK_TIME` (src/index.ts:48), in milliseconds. -/
def DEFAULT_BLOCK_TIME : Nat := 2000

/-- An ethers `JsonRpcProvider` as observable to this code: endpoint
URL, network id, a fresh allocation id standing for the object identity
each `new` creates, and the `getFeeData` override installed by
`createSDK`, if any (`none` until a session is created on this
connection; `some g` after the method has been monkey-patched capturing
gas price `g`). -/
structure JsonRpcProvider where
  url : String
  networkId : Nat
  handleId : Nat
  feeOverride : Option (Option Int)
deriving Repr, DecidableEq

/-- The object literal returned by `createProviders` (src/index.ts:56-73):
one fresh `JsonRpcProvider` per entry of the static four-network table.
The `nextHandle` counter models `new` allocating distinct objects. -/
def providersTable (config : Config) (nextHandle : Nat) : List (Nat × JsonRpcProvider) :=
  let key := jsToDisplay config.INFURA_API_KEY
  [(DEFAULT_NETWORK_ID,
      ⟨"https://base-sepolia.infura.io/v3/" ++ key, DEFAULT_NETWORK_ID, nextHandle, none⟩),
   (8453, ⟨"https://base-mainnet.infura.io/v3/" ++ key, 8453, nextHandle + 1, none⟩),
   (137, ⟨"https://polygon-mainnet.infura.io/v3/" ++ key, 137, nextHandle + 2, none⟩),
   (690, ⟨"https://rpc.redstonechain.com", 690, nextHandle + 3, none⟩)]

/-- `createProviders` (src/index.ts:51-74): throws when
`config.INFURA_API_KEY` is falsy, otherwise returns the fresh
four-network provider table. -/
def createProviders (config : Config) (nextHandle : Nat) :
    Except String (List (Nat × JsonRpcProvider) × Nat) :=
  if ¬ jsTruthy config.INFURA_API_KEY then
    .error "INFURA_API_KEY is required in config"
  else
    .ok (providersTable config nextHandle, nextHandle + 4)

/-- `BLOCK_TIME` (src/index.ts:79-84): per-network block time in ms. -/
def BLOCK_TIME : List (Nat × Nat) :=
  [(84532, 2000), (8453, 2000), (137, 2000), (690, 2000)]

/-- The module-level mutable state of `index.ts`: `globalConfig`
(src/index.ts:42-45) and `PROVIDERS` (src/index.ts:77), plus the
allocation counter for fresh provider handles. -/
structure ServerState where
  globalConfig : Config
  PROVIDERS : List (Nat × JsonRpcProvider)
  nextHandle : Nat

/-- The state at module load: both config fields `undefined`, no
providers. -/
def initialState : ServerState := ⟨⟨none, none⟩, [], 0⟩

/-- `updateConfigFromURL` (src/index.ts:393-407): on a successful parse,
replaces `globalConfig` and then rebuilds `PROVIDERS`; a
`createProviders` throw is caught and only logged (leaving the old
`PROVIDERS`); a failed parse leaves the whole state untouched. -/
def updateConfigFromURL (url : String) (s : ServerState) : ServerState :=
  match parseConfigFromURL url with
  | some urlConfig =>
    let s1 := { s with globalConfig := urlConfig }
    match createProviders urlConfig s1.nextHandle with
    | .ok (ps, nh) => { s1 with PROVIDERS := ps, nextHandle := nh }
    | .error _ => s1
  | none => s

/-- The `configure_from_url` tool (src/index.ts:414-424): runs
`updateConfigFromURL` and returns
`JSON.stringify({ message: "Configuration updated successfully" })`
unconditionally. -/
def configure_from_url (url : String) (s : ServerState) : ServerState × String :=
  (updateConfigFromURL url s,
   jsonStringify (Json.obj [("message", Json.str "Configuration updated successfully")]))

/-- JS object indexing `record[key]` on a numeric-keyed record modelled
as an association list (`none` = `undefined`). -/
def recordGet {A : Type} (key : Nat) : List (Nat × A) → Option A
  | [] => none
  | (k, v) :: rest => if k = key then some v else recordGet key rest

/-- The values `createSDK` (src/index.ts:87-120) can throw: a
`new Error(message)` for the two precondition failures, or the
`ServerResponse` with `statusCode`/`statusMessage` thrown on signer
construction failure. -/
inductive SDKError where
  | thrownError (message : String)
  | thrownResponse (statusCode : Nat) (statusMessage : String)
deriving Repr, DecidableEq

/-- A JS thrown value as examined by `error instanceof Error`: an
`Error` carrying a message, or any other value. -/
inductive JsThrown where
  | error (message : String)
  | other
deriving Repr, DecidableEq

/-- External nondeterminism: the blockchain node's live fee estimate per
network, the ethers `Wallet` constructor (throws on a malformed
credential), and one entry per delegate method of the exchange client
(`BitlySDK`; results and failures are opaque to the layer under
study). -/
structure ExtWorld where
  feeOracle : Nat → FeeData
  walletNew : Option Json → Except JsThrown Unit
  placeLimitOrder : String → String → Int → Int → Except String Json
  placeMarketOrder : String → String → Int → Int → Int → Except String Json
  cancelLimitOrder : String → String → Int → Except String Json
  cancelAllLimitOrder : String → Except String Json
  claimEarning : String → String → Int → Except String Json
  claimAllEarnings : String → Except String Json
  updateKline : String → Except String Unit

/-- `provider.getFeeData()`: the overridden method, once installed,
returns the synthesized legacy estimate ignoring the node; otherwise the
live estimate from the fee oracle. -/
def providerGetFeeData (oracle : Nat → FeeData) (p : JsonRpcProvider) : FeeData :=
  match p.feeOverride with
  | some g => ⟨none, none, none, g⟩
  | none => oracle p.networkId

/-- A `BitlySDK` instance as constructed by `createSDK` and rebound by
the handlers' `setProvider` calls (mock SDK, src/mock-bitly-sdk.ts:
`setSigner`/`setProvider` store their argument and resolve). -/
structure SDKHandle where
  networkId : Nat
  provider : Option JsonRpcProvider
  signerSet : Bool

/-- Replaces the provider object stored under a network id (the code
mutates the provider in place; the registry entry aliases it). -/
def setProviderEntry (nid : Nat) (p : JsonRpcProvider) :
    List (Nat × JsonRpcProvider) → List (Nat × JsonRpcProvider)
  | [] => []
  | (k, q) :: rest =>
    if k = nid then (k, p) :: rest else (k, q) :: setProviderEntry nid p rest

/-- The overridden provider produced by `createSDK`'s monkey-patch:
`getFeeData` is queried once and replaced by a closure capturing the
observed `gasPrice`. -/
def installFeeOverride (oracle : Nat → FeeData) (p : JsonRpcProvider) : JsonRpcProvider :=
  { p with feeOverride := some (providerGetFeeData oracle p).gasPrice }

/-- The cause text used in the 401 status message:
`error instanceof Error ? error.message : 'Invalid wallet configuration'`. -/
def jsThrownCause : JsThrown → String
  | .error m => m
  | .other => "Invalid wallet configuration"

/-- `createSDK` (src/index.ts:87-120).  In order: (1) throws
`Error('Configuration not provided...')` when either `globalConfig`
field is falsy; (2) throws `Error('Provider not available...')` when
`PROVIDERS[networkId]` is undefined; (3) queries the provider's current
fee estimate once and overrides `provider.getFeeData` in place to
return the legacy-mode estimate capturing that gas price; (4)
constructs the `Wallet` signer — a throw is re-thrown as a
`ServerResponse` with status 401 and message `"Unauthorized - " + cause`
(the override from step 3 stays installed); (5) returns the SDK with
the signer attached.  Returns the (possibly mutated) state alongside
the thrown value or result. -/
def createSDK (ext : ExtWorld) (st : ServerState) (networkId : Nat) :
    ServerState × Except SDKError SDKHandle :=
  if ¬ jsTruthy st.globalConfig.WALLET_PRIVATE_KEY ∨
      ¬ jsTruthy st.globalConfig.INFURA_API_KEY then
    (st, .error (.thrownError
      "Configuration not provided. Use configure_from_url tool or set MCP_SERVER_URL with base64 encoded config parameter."))
  else
    match recordGet networkId st.PROVIDERS with
    | none =>
      (st, .error (.thrownError
        ("Provider not available for network " ++ toString networkId ++
          ". Configuration may not be properly set.")))
    | some provider =>
      match ext.walletNew st.globalConfig.WALLET_PRIVATE_KEY with
      | .error e =>
        ({ st with PROVIDERS :=
            setProviderEntry networkId (installFeeOverride ext.feeOracle provider) st.PROVIDERS },
         .error (.thrownResponse 401 ("Unauthorized - " ++ jsThrownCause e)))
      | .ok _ =>
        ({ st with PROVIDERS :=
            setProviderEntry networkId (installFeeOverride ext.feeOracle provider) st.PROVIDERS },
         .ok ⟨networkId, some (installFeeOverride ext.feeOracle provider), true⟩)

/-- Observable effects of a tool handler, in program order. -/
inductive Effect where
  | setProviderCall (networkId : Nat)
  | delegateCall (method : String) (pairId : String)
  | setTimeoutCall (delayMs : Nat)
  | updateKlineCall (pairId : String)
deriving Repr, DecidableEq

/-- A failure escaping a tool handler: a value thrown by `createSDK`, or
a delegate/refresh rejection propagated as-is. -/
inductive ToolError where
  | sdk (e : SDKError)
  | delegate (message : String)
deriving Repr, DecidableEq

/-- Outcome of one tool invocation: resulting module state, effect
trace, and the value returned to the caller (or the escaping error). -/
structure ToolRun where
  state : ServerState
  effects : List Effect
  result : Except ToolError String

/-- The `place_limit_order` handler (src/index.ts:221-228): `createSDK`,
`setProvider`, delegate `placeLimitOrder`, then
`setTimeout(..., BLOCK_TIME[networkId] ?? DEFAULT_BLOCK_TIME + 1000)`
and `prices.updateKline(pairId)` before serializing the delegate
result.  A rejection anywhere propagates; nothing is caught. -/
def place_limit_order_execute (ext : ExtWorld) (st : ServerState)
    (networkId : Nat) (pairId direction : String) (price volume : Int) : ToolRun :=
  match createSDK ext st networkId with
  | (st', .error e) => ⟨st', [], .error (.sdk e)⟩
  | (st', .ok _) =>
    match ext.placeLimitOrder pairId direction price volume with
    | .error m =>
      ⟨st', [.setProviderCall networkId, .delegateCall "placeLimitOrder" pairId],
        .error (.delegate m)⟩
    | .ok info =>
      let delayMs := (recordGet networkId BLOCK_TIME).getD DEFAULT_BLOCK_TIME + 1000
      match ext.updateKline pairId with
      | .error m =>
        ⟨st', [.setProviderCall networkId, .delegateCall "placeLimitOrder" pairId,
          .setTimeoutCall delayMs], .error (.delegate m)⟩
      | .ok _ =>
        ⟨st', [.setProviderCall networkId, .delegateCall "placeLimitOrder" pairId,
          .setTimeoutCall delayMs, .updateKlineCall pairId], .ok (jsonStringify info)⟩

/-- The `place_market_order` handler (src/index.ts:243-250): same shape
as `place_limit_order`, delegating to `placeMarketOrder`. -/
def place_market_order_execute (ext : ExtWorld) (st : ServerState)
    (networkId : Nat) (pairId direction : String) (volume curPrice slippage : Int) : ToolRun :=
  match createSDK ext st networkId with
  | (st', .error e) => ⟨st', [], .error (.sdk e)⟩
  | (st', .ok _) =>
    match ext.placeMarketOrder pairId direction volume curPrice slippage with
    | .error m =>
      ⟨st', [.setProviderCall networkId, .delegateCall "placeMarketOrder" pairId],
        .error (.delegate m)⟩
    | .ok info =>
      let delayMs := (recordGet networkId BLOCK_TIME).getD DEFAULT_BLOCK_TIME + 1000
      match ext.updateKline pairId with
      | .error m =>
        ⟨st', [.setProviderCall networkId, .delegateCall "placeMarketOrder" pairId,
          .setTimeoutCall delayMs], .error (.delegate m)⟩
      | .ok _ =>
        ⟨st', [.setProviderCall networkId, .delegateCall "placeMarketOrder" pairId,
          .setTimeoutCall delayMs, .updateKlineCall pairId], .ok (jsonStringify info)⟩

/-- The `cancel_limit_order` handler (src/index.ts:262-267): `createSDK`,
`setProvider`, delegate `cancelLimitOrder`, serialize — no settlement
wait and no kline refresh. -/
def cancel_limit_order_execute (ext : ExtWorld) (st : ServerState)
    (networkId : Nat) (pairId direction : String) (point : Int) : ToolRun :=
  match createSDK ext st networkId with
  | (st', .error e) => ⟨st', [], .error (.sdk e)⟩
  | (st', .ok _) =>
    match ext.cancelLimitOrder pairId direction point with
    | .error m =>
      ⟨st', [.setProviderCall networkId, .delegateCall "cancelLimitOrder" pairId],
        .error (.delegate m)⟩
    | .ok info =>
      ⟨st', [.setProviderCall networkId, .delegateCall "cancelLimitOrder" pairId],
        .ok (jsonStringify info)⟩

/-- The `cancel_all_limit_order` handler (src/index.ts:277-282): no
settlement wait and no kline refresh. -/
def cancel_all_limit_order_execute (ext : ExtWorld) (st : ServerState)
    (networkId : Nat) (pairId : String) : ToolRun :=
  match createSDK ext st networkId with
  | (st', .error e) => ⟨st', [], .error (.sdk e)⟩
  | (st', .ok _) =>
    match ext.cancelAllLimitOrder pairId with
    | .error m =>
      ⟨st', [.setProviderCall networkId, .delegateCall "cancelAllLimitOrder" pairId],
        .error (.delegate m)⟩
    | .ok info =>
      ⟨st', [.setProviderCall networkId, .delegateCall "cancelAllLimitOrder" pairId],
        .ok (jsonStringify info)⟩

/-- The `claim_earning` handler (src/index.ts:294-299): no settlement
wait and no kline refresh. -/
def claim_earning_execute (ext : ExtWorld) (st : ServerState)
    (networkId : Nat) (pairId direction : String) (point : Int) : ToolRun :=
  match createSDK ext st networkId with
  | (st', .error e) => ⟨st', [], .error (.sdk e)⟩
  | (st', .ok _) =>
    match ext.claimEarning pairId direction point with
    | .error m =>
      ⟨st', [.setProviderCall networkId, .delegateCall "claimEarning" pairId],
        .error (.delegate m)⟩
    | .ok info =>
      ⟨st', [.setProviderCall networkId, .delegateCall "claimEarning" pairId],
        .ok (jsonStringify info)⟩

/-- The `claim_all_earnings` handler (src/index.ts:309-314): no
settlement wait and no kline refresh. -/
def claim_all_earnings_execute (ext : ExtWorld) (st : ServerState)
    (networkId : Nat) (pairId : String) : ToolRun :=
  match createSDK ext st networkId with
  | (st', .error e) => ⟨st', [], .error (.sdk e)⟩
  | (st', .ok _) =>
    match ext.claimAllEarnings pairId with
    | .error m =>
      ⟨st', [.setProviderCall networkId, .delegateCall "claimAllEarnings" pairId],
        .error (.delegate m)⟩
    | .ok info =>
      ⟨st', [.setProviderCall networkId, .delegateCall "claimAllEarnings" pairId],
        .ok (jsonStringify info)⟩

/-- One state transition of the module state: a reconfiguration (from
startup or the `configure_from_url` tool) or any tool invocation (whose
only state effect is `createSDK`'s fee-override installation). -/
inductive Step : ServerState → ServerState → Prop
  | reconfig (url : String) (s : ServerState) : Step s (updateConfigFromURL url s)
  | configureTool (url : String) (s : ServerState) : Step s (configure_from_url url s).1
  | session (ext : ExtWorld) (networkId : Nat) (s : ServerState) :
      Step s (createSDK ext s networkId).1

/-- States reachable from module load by reconfigurations and tool
invocations. -/
inductive Reachable : ServerState → Prop
  | init : Reachable initialState
  | step {s s' : ServerState} : Reachable s → Step s s' → Reachable s'

/-- A fixed delegate result standing for one of the mock SDK's
randomly generated `ContractTransaction` objects. -/
def mockTx : Json := Json.obj [("hash", Json.str "0xabc")]

/-- A benign external world: a live fee estimate with gas price 7, a
wallet constructor accepting any credential (as the mock `setSigner`
path does for a well-formed key), and delegate calls that succeed with
a fixed mock transaction. -/
def extOK : ExtWorld :=
  { feeOracle := fun _ => ⟨some 5, some 9, some 2, some 7⟩,
    walletNew := fun _ => .ok (),
    placeLimitOrder := fun _ _ _ _ => .ok mockTx,
    placeMarketOrder := fun _ _ _ _ _ => .ok mockTx,
    cancelLimitOrder := fun _ _ _ => .ok mockTx,
    cancelAllLimitOrder := fun _ => .ok mockTx,
    claimEarning := fun _ _ _ => .ok mockTx,
    claimAllEarnings := fun _ => .ok mockTx,
    updateKline := fun _ => .ok () }

/-- Like `extOK` but the ethers `Wallet` constructor throws (malformed
private key). -/
def extBadWallet : ExtWorld :=
  { extOK with walletNew := fun _ => .error (.error "invalid private key") }

/-- Like `extOK` but the kline refresh rejects. -/
def extKlineFails : ExtWorld :=
  { extOK with updateKline := fun _ => .error "kline refresh failed" }

/-- A well-formed configuration source: the base64 payload decodes to
`{"WALLET_PRIVATE_KEY":"k","INFURA_API_KEY":"a"}`. -/
def goodConfigURL : String :=
  "http://localhost:8080/mcp?config=eyJXQUxMRVRfUFJJVkFURV9LRVkiOiJrIiwiSU5GVVJBX0FQSV9LRVkiOiJhIn0="

/-- The module state after a successful startup configuration from
`goodConfigURL`. -/
def configuredState : ServerState := updateConfigFromURL goodConfigURL initialState

/-- The module state after additionally creating one session on network
84532 (fee override installed on that provider). -/
def sessionState : ServerState := (createSDK extOK configuredState 84532).1

/-- The SDK handle returned by that session creation. -/
def sessionHandle : SDKHandle := ⟨84532, recordGet 84532 sessionState.PROVIDERS, true⟩

/-- A decode that succeeds validated both required fields truthy. -/
theorem parseConfigFromURL_some_truthy (url : String) (cfg : Config)
    (h : parseConfigFromURL url = some cfg) :
    jsTruthy cfg.WALLET_PRIVATE_KEY = true ∧ jsTruthy cfg.INFURA_API_KEY = true := by
  unfold parseConfigFromURL at h
  split at h
  · exact Option.noConfusion h
  · split at h
    · exact Option.noConfusion h
    · split at h
      · exact Option.noConfusion h
      · split at h
        · exact Option.noConfusion h
        · split at h
          · exact Option.noConfusion h
          · rename_i hcond
            push_neg at hcond
            have hc := Option.some.inj h
            subst hc
            exact ⟨hcond.1, hcond.2⟩

/-- Replacing a present provider entry is observed by lookup. -/
theorem recordGet_setProviderEntry (nid : Nat) (p q : JsonRpcProvider) :
    ∀ l : List (Nat × JsonRpcProvider), recordGet nid l = some q →
      recordGet nid (setProviderEntry nid p l) = some p := by
  intro l
  induction l with
  | nil => intro h; exact Option.noConfusion h
  | cons kv rest ih =>
    intro h
    obtain ⟨k, r⟩ := kv
    by_cases hk : k = nid
    · subst hk
      simp [setProviderEntry, recordGet]
    · rw [recordGet, if_neg hk] at h
      rw [setProviderEntry, if_neg hk, recordGet, if_neg hk]
      exact ih h

/-- Replacing a provider entry does not change the key list. -/
theorem map_fst_setProviderEntry (nid : Nat) (p : JsonRpcProvider) :
    ∀ l : List (Nat × JsonRpcProvider),
      (setProviderEntry nid p l).map Prod.fst = l.map Prod.fst := by
  intro l
  induction l with
  | nil => rfl
  | cons kv rest ih =>
    obtain ⟨k, r⟩ := kv
    by_cases hk : k = nid
    · simp [setProviderEntry, hk]
    · simp [setProviderEntry, hk, ih]

/-- `createSDK` changes neither the configuration nor the registry's key
list (its only mutation replaces one provider object in place). -/
theorem createSDK_state_shape (ext : ExtWorld) (st : ServerState) (networkId : Nat) :
    (createSDK ext st networkId).1.globalConfig = st.globalConfig ∧
    (createSDK ext st networkId).1.PROVIDERS.map Prod.fst = st.PROVIDERS.map Prod.fst := by
  unfold createSDK
  split
  · exact ⟨rfl, rfl⟩
  · split
    · exact ⟨rfl, rfl⟩
    · split
      · exact ⟨rfl, map_fst_setProviderEntry _ _ _⟩
      · exact ⟨rfl, map_fst_setProviderEntry _ _ _⟩

/-- C4: `createSDK` checks its preconditions in order: with no non-empty
configuration it throws the not-configured `Error` (for every network
id); with a configuration present but no registry entry for the network
id it throws the unknown-network `Error`; in both cases the module
state is returned unchanged. -/
theorem createSDK_checks_preconditions_in_order (ext : ExtWorld) (st : ServerState)
    (networkId : Nat) :
    (¬ (jsTruthy st.globalConfig.WALLET_PRIVATE_KEY = true ∧
        jsTruthy st.globalConfig.INFURA_API_KEY = true) →
      createSDK ext st networkId = (st, .error (.thrownError
        "Configuration not provided. Use configure_from_url tool or set MCP_SERVER_URL with base64 encoded config parameter."))) ∧
    (jsTruthy st.globalConfig.WALLET_PRIVATE_KEY = true →
      jsTruthy st.globalConfig.INFURA_API_KEY = true →
      recordGet networkId st.PROVIDERS = none →
      createSDK ext st networkId = (st, .error (.thrownError
        ("Provider not available for network " ++ toString networkId ++
          ". Configuration may not be properly set.")))) := by
  constructor
  · intro h
    have hc : ¬ (jsTruthy st.globalConfig.WALLET_PRIVATE_KEY = true) ∨
        ¬ (jsTruthy st.globalConfig.INFURA_API_KEY = true) := by tauto
    unfold createSDK
    rw [if_pos hc]
  · intro h1 h2 hnone
    have hc : ¬ (¬ (jsTruthy st.globalConfig.WALLET_PRIVATE_KEY = true) ∨
        ¬ (jsTruthy st.globalConfig.INFURA_API_KEY = true)) := by tauto
    unfold createSDK
    rw [if_neg hc, hnone]

/-- Witness for C4: at the unconfigured initial state every network id
is rejected as not configured; at a configured state an id outside the
static table is rejected as provider-unavailable. -/
theorem createSDK_checks_preconditions_in_order_witness :
    createSDK extOK initialState 84532 = (initialState, .error (.thrownError
      "Configuration not provided. Use configure_from_url tool or set MCP_SERVER_URL with base64 encoded config parameter.")) ∧
    createSDK extOK configuredState 999 = (configuredState, .error (.thrownError
      ("Provider not available for network " ++ toString 999 ++
        ". Configuration may not be properly set."))) :=
  ⟨(createSDK_checks_preconditions_in_order extOK initialState 84532).1 (by decide),
   (createSDK_checks_preconditions_in_order extOK configuredState 999).2
     (by decide) (by decide) rfl⟩

/-- C9: when the wallet credential cannot produce a signer (the ethers
`Wallet` constructor throws an `Error` with a cause message),
`createSDK` fails with the distinct 401 `ServerResponse` carrying
`"Unauthorized - "` and the underlying cause — and not with the generic
`Error` shape used by the other failures. -/
theorem createSDK_unauthorized_distinct (ext : ExtWorld) (st : ServerState)
    (networkId : Nat) (provider : JsonRpcProvider) (cause : String)
    (h1 : jsTruthy st.globalConfig.WALLET_PRIVATE_KEY = true)
    (h2 : jsTruthy st.globalConfig.INFURA_API_KEY = true)
    (hp : recordGet networkId st.PROVIDERS = some provider)
    (hw : ext.walletNew st.globalConfig.WALLET_PRIVATE_KEY = .error (.error cause)) :
    (createSDK ext st networkId).2 =
      .error (.thrownResponse 401 ("Unauthorized - " ++ cause)) ∧
    ∀ msg, (createSDK ext st networkId).2 ≠ .error (.thrownError msg) := by
  have hc : ¬ (¬ (jsTruthy st.globalConfig.WALLET_PRIVATE_KEY = true) ∨
      ¬ (jsTruthy st.globalConfig.INFURA_API_KEY = true)) := by tauto
  have heq : (createSDK ext st networkId).2 =
      .error (.thrownResponse 401 ("Unauthorized - " ++ cause)) := by
    unfold createSDK
    rw [if_neg hc, hp, hw]
    rfl
  exact ⟨heq, fun msg => by rw [heq]; simp⟩

/-- Witness for C9: a bad credential at the configured state yields the
401 response carrying the thrown cause. -/
theorem createSDK_unauthorized_distinct_witness :
    (createSDK extBadWallet configuredState 84532).2 =
      .error (.thrownResponse 401 ("Unauthorized - " ++ "invalid private key")) ∧
    ∀ msg, (createSDK extBadWallet configuredState 84532).2 ≠
      .error (.thrownError msg) :=
  createSDK_unauthorized_distinct extBadWallet configuredState 84532
    ⟨"https://base-sepolia.infura.io/v3/a", 84532, 0, none⟩ "invalid private key"
    (by decide) (by decide) rfl rfl

/-- C7: on any source whose decode fails, the reconfiguration flow
leaves the previously held configuration and provider registry — the
entire module state — unchanged. -/
theorem updateConfigFromURL_failure_preserves_state (url : String) (s : ServerState)
    (h : parseConfigFromURL url = none) :
    updateConfigFromURL url s = s := by
  unfold updateConfigFromURL
  rw [h]

/-- Witness for C7: a source missing the `config` parameter decodes to
`null` and leaves the configured state intact. -/
theorem updateConfigFromURL_failure_preserves_state_witness :
    parseConfigFromURL "http://localhost:8080/mcp?other=1" = none ∧
    updateConfigFromURL "http://localhost:8080/mcp?other=1" configuredState =
      configuredState :=
  ⟨rfl, updateConfigFromURL_failure_preserves_state
    "http://localhost:8080/mcp?other=1" configuredState rfl⟩

/-- C1 counterexample: `configure_from_url` does not report failure.  On
a source that fails to decode (and leaves the state unconfigured), the
tool returns the fixed success message — byte-identical to its response
for a source that decodes successfully — so its returned result does
not distinguish a failed reconfiguration from a successful one. -/
theorem configure_from_url_success_message_on_failure :
    parseConfigFromURL "not a url" = none ∧
    parseConfigFromURL goodConfigURL =
      some ⟨some (Json.str "k"), some (Json.str "a")⟩ ∧
    (configure_from_url "not a url" initialState).1 = initialState ∧
    (configure_from_url "not a url" initialState).2 =
      (configure_from_url goodConfigURL initialState).2 ∧
    (configure_from_url "not a url" initialState).2 =
      "\x7b\"message\":\"Configuration updated successfully\"\x7d" :=
  ⟨rfl, rfl, rfl, rfl, rfl⟩

/-- C1 amended: the reconfiguration tool invokes the decode-then-rebuild
flow on its input, but returns one and the same fixed success message
whatever the outcome; success and failure are reported identically (the
outcome is observable only in the state, not in the result). -/
theorem configure_from_url_constant_result (url : String) (s : ServerState) :
    configure_from_url url s =
      (updateConfigFromURL url s,
        "\x7b\"message\":\"Configuration updated successfully\"\x7d") := rfl

/-- C6 counterexample: two different failure points — a source that is
not a URL at all, and a well-formed URL missing the `config` parameter
— produce the very same untagged result (`null`); decode does not fail
with a distinct tagged error per failure point. -/
theorem parseConfigFromURL_failures_untagged :
    parseConfigFromURL "not a url" =
      parseConfigFromURL "http://localhost:8080/mcp?other=1" ∧
    parseConfigFromURL "not a url" = none :=
  ⟨rfl, rfl⟩

/-- C6 amended: decode indeed never throws across the component boundary
(the single `catch` turns every failure into `null`), but the failure
points are not distinguished: a malformed source, a missing parameter, a
payload that fails to JSON-parse after the never-failing forgiving
base64 decode, and an empty required field all return the same untagged
`null`; a success always carries truthy required fields. -/
theorem parseConfigFromURL_single_failure_mode :
    parseConfigFromURL "not a url" = none ∧
    parseConfigFromURL "http://localhost:8080/mcp?other=1" = none ∧
    parseConfigFromURL "http://localhost:8080/mcp?config=eyJXQUxMRVQ=" = none ∧
    parseConfigFromURL
      "http://localhost:8080/mcp?config=eyJXQUxMRVRfUFJJVkFURV9LRVkiOiJrIiwiSU5GVVJBX0FQSV9LRVkiOiIifQ==" =
      none ∧
    ∀ url, parseConfigFromURL url = none ∨
      ∃ cfg, parseConfigFromURL url = some cfg ∧
        jsTruthy cfg.WALLET_PRIVATE_KEY = true ∧
        jsTruthy cfg.INFURA_API_KEY = true := by
  refine ⟨rfl, rfl, rfl, rfl, fun url => ?_⟩
  cases hp : parseConfigFromURL url with
  | none => exact .inl rfl
  | some cfg =>
    exact .inr ⟨cfg, rfl, (parseConfigFromURL_some_truthy url cfg hp).1,
      (parseConfigFromURL_some_truthy url cfg hp).2⟩

/-- C2 counterexample: a successful `cancel_limit_order` invocation —
one of the state-mutating tools — performs no settlement wait and no
kline refresh: its entire effect trace is the `setProvider` rebind and
the delegate call, and it returns the serialized delegate result
directly. -/
theorem cancel_limit_order_skips_settlement_refresh :
    (cancel_limit_order_execute extOK configuredState 84532 "PAIR" "BUY" 5).effects =
      [.setProviderCall 84532, .delegateCall "cancelLimitOrder" "PAIR"] ∧
    (cancel_limit_order_execute extOK configuredState 84532 "PAIR" "BUY" 5).result =
      .ok (jsonStringify mockTx) :=
  ⟨rfl, rfl⟩

/-- C2 amended: only the two order-placing tools perform the settlement
step.  After their delegate call succeeds they execute the `setTimeout`
call with delay `BLOCK_TIME[networkId] ?? DEFAULT_BLOCK_TIME` plus the
fixed 1000 ms margin and then trigger the kline refresh for the pair,
before returning the serialized result; the four cancel/claim tools
return the serialized delegate result immediately, with neither wait
nor refresh. -/
theorem settlement_refresh_exactly_in_place_tools (ext : ExtWorld) (st st' : ServerState)
    (sdk : SDKHandle) (nid : Nat) (pair dir : String) (price vol curP slip point : Int)
    (info : Json) (hsdk : createSDK ext st nid = (st', .ok sdk)) :
    (ext.placeLimitOrder pair dir price vol = .ok info → ext.updateKline pair = .ok () →
      place_limit_order_execute ext st nid pair dir price vol =
        ⟨st', [.setProviderCall nid, .delegateCall "placeLimitOrder" pair,
          .setTimeoutCall ((recordGet nid BLOCK_TIME).getD DEFAULT_BLOCK_TIME + 1000),
          .updateKlineCall pair], .ok (jsonStringify info)⟩) ∧
    (ext.placeMarketOrder pair dir vol curP slip = .ok info → ext.updateKline pair = .ok () →
      place_market_order_execute ext st nid pair dir vol curP slip =
        ⟨st', [.setProviderCall nid, .delegateCall "placeMarketOrder" pair,
          .setTimeoutCall ((recordGet nid BLOCK_TIME).getD DEFAULT_BLOCK_TIME + 1000),
          .updateKlineCall pair], .ok (jsonStringify info)⟩) ∧
    (ext.cancelLimitOrder pair dir point = .ok info →
      cancel_limit_order_execute ext st nid pair dir point =
        ⟨st', [.setProviderCall nid, .delegateCall "cancelLimitOrder" pair],
          .ok (jsonStringify info)⟩) ∧
    (ext.cancelAllLimitOrder pair = .ok info →
      cancel_all_limit_order_execute ext st nid pair =
        ⟨st', [.setProviderCall nid, .delegateCall "cancelAllLimitOrder" pair],
          .ok (jsonStringify info)⟩) ∧
    (ext.claimEarning pair dir point = .ok info →
      claim_earning_execute ext st nid pair dir point =
        ⟨st', [.setProviderCall nid, .delegateCall "claimEarning" pair],
          .ok (jsonStringify info)⟩) ∧
    (ext.claimAllEarnings pair = .ok info →
      claim_all_earnings_execute ext st nid pair =
        ⟨st', [.setProviderCall nid, .delegateCall "claimAllEarnings" pair],
          .ok (jsonStringify info)⟩) := by
  refine ⟨fun hdel hkl => ?_, fun hdel hkl => ?_, fun hdel => ?_, fun hdel => ?_,
    fun hdel => ?_, fun hdel => ?_⟩
  · unfold place_limit_order_execute
    rw [hsdk, hdel, hkl]
  · unfold place_market_order_execute
    rw [hsdk, hdel, hkl]
  · unfold cancel_limit_order_execute
    rw [hsdk, hdel]
  · unfold cancel_all_limit_order_execute
    rw [hsdk, hdel]
  · unfold claim_earning_execute
    rw [hsdk, hdel]
  · unfold claim_all_earnings_execute
    rw [hsdk, hdel]

/-- Witness for the amended C2: a successful `place_limit_order` at the
configured state produces exactly the delegate-wait-refresh trace. -/
theorem settlement_refresh_exactly_in_place_tools_witness :
    extOK.placeLimitOrder "PAIR" "BUY" 1 2 = .ok mockTx ∧
    extOK.updateKline "PAIR" = .ok () ∧
    place_limit_order_execute extOK configuredState 84532 "PAIR" "BUY" 1 2 =
      ⟨sessionState, [.setProviderCall 84532, .delegateCall "placeLimitOrder" "PAIR",
        .setTimeoutCall ((recordGet 84532 BLOCK_TIME).getD DEFAULT_BLOCK_TIME + 1000),
        .updateKlineCall "PAIR"], .ok (jsonStringify mockTx)⟩ :=
  ⟨rfl, rfl,
    (settlement_refresh_exactly_in_place_tools extOK configuredState sessionState
      sessionHandle 84532 "PAIR" "BUY" 1 2 0 0 0 mockTx rfl).1 rfl rfl⟩

/-- C3 counterexample: with a delegate call that succeeds and a kline
refresh that rejects, `place_limit_order` reports the refresh failure
instead of the serialized delegate result — the refresh failure is not
swallowed and does change the tool's reported result. -/
theorem place_limit_order_refresh_failure_not_swallowed :
    extKlineFails.placeLimitOrder "PAIR" "BUY" 1 2 = .ok mockTx ∧
    (place_limit_order_execute extKlineFails configuredState 84532 "PAIR" "BUY" 1 2).result =
      .error (.delegate "kline refresh failed") ∧
    (place_limit_order_execute extKlineFails configuredState 84532 "PAIR" "BUY" 1 2).result ≠
      .ok (jsonStringify mockTx) := by
  refine ⟨rfl, rfl, fun hco => ?_⟩
  have h2 : (place_limit_order_execute extKlineFails configuredState 84532
      "PAIR" "BUY" 1 2).result = .error (.delegate "kline refresh failed") := rfl
  rw [h2] at hco
  exact Except.noConfusion hco

/-- C3 amended: a refresh failure after a successful delegate call
propagates — the two order-placing tools (the only mutating tools with a
refresh step) return the refresh error rather than the serialized
delegate result; nothing in the handler catches it. -/
theorem refresh_failure_propagates (ext : ExtWorld) (st st' : ServerState) (sdk : SDKHandle)
    (nid : Nat) (pair dir : String) (price vol curP slip : Int) (info : Json) (m : String)
    (hsdk : createSDK ext st nid = (st', .ok sdk))
    (hkl : ext.updateKline pair = .error m) :
    (ext.placeLimitOrder pair dir price vol = .ok info →
      (place_limit_order_execute ext st nid pair dir price vol).result =
        .error (.delegate m)) ∧
    (ext.placeMarketOrder pair dir vol curP slip = .ok info →
      (place_market_order_execute ext st nid pair dir vol curP slip).result =
        .error (.delegate m)) := by
  refine ⟨fun hdel => ?_, fun hdel => ?_⟩
  · unfold place_limit_order_execute
    rw [hsdk, hdel, hkl]
  · unfold place_market_order_execute
    rw [hsdk, hdel, hkl]

/-- Witness for the amended C3: the failing-refresh world at the
configured state makes `place_market_order` report the refresh error. -/
theorem refresh_failure_propagates_witness :
    extKlineFails.updateKline "PAIR" = .error "kline refresh failed" ∧
    extKlineFails.placeMarketOrder "PAIR" "SELL" 3 4 5 = .ok mockTx ∧
    (place_market_order_execute extKlineFails configuredState 84532 "PAIR" "SELL" 3 4 5).result =
      .error (.delegate "kline refresh failed") :=
  ⟨rfl, rfl,
    (refresh_failure_propagates extKlineFails configuredState sessionState sessionHandle
      84532 "PAIR" "SELL" 0 3 4 5 mockTx "kline refresh failed" rfl rfl).2 rfl⟩

/-- C5: when a session is created on a connection, the override installed
on that connection captures the gas price observed at installation time;
every subsequent fee-estimate query on it returns null
`lastBaseFeePerGas`/`maxFeePerGas`/`maxPriorityFeePerGas` and exactly
that gas price, whatever the node's later estimates are — and since the
overridden method is pure, this holds however many times it is
queried. -/
theorem feeData_override_persistent (ext : ExtWorld) (st st' : ServerState)
    (sdk : SDKHandle) (networkId : Nat)
    (h : createSDK ext st networkId = (st', .ok sdk)) :
    ∃ p p', recordGet networkId st.PROVIDERS = some p ∧
      recordGet networkId st'.PROVIDERS = some p' ∧
      p'.feeOverride = some (providerGetFeeData ext.feeOracle p).gasPrice ∧
      ∀ oracle : Nat → FeeData, providerGetFeeData oracle p' =
        ⟨none, none, none, (providerGetFeeData ext.feeOracle p).gasPrice⟩ := by
  unfold createSDK at h
  split at h
  · exact absurd h (by simp)
  · split at h
    · exact absurd h (by simp)
    · rename_i provider hp
      split at h
      · exact absurd h (by simp)
      · injection h with hst hsdk
        subst hst
        refine ⟨provider, installFeeOverride ext.feeOracle provider, hp, ?_, rfl, fun oracle => rfl⟩
        exact recordGet_setProviderEntry networkId
          (installFeeOverride ext.feeOracle provider) provider st.PROVIDERS hp

/-- Witness for C5: the session created at the configured state installs
the override capturing gas price 7 on the network-84532 provider. -/
theorem feeData_override_persistent_witness :
    ∃ p p', recordGet 84532 configuredState.PROVIDERS = some p ∧
      recordGet 84532 sessionState.PROVIDERS = some p' ∧
      p'.feeOverride = some (providerGetFeeData extOK.feeOracle p).gasPrice ∧
      ∀ oracle : Nat → FeeData, providerGetFeeData oracle p' =
        ⟨none, none, none, (providerGetFeeData extOK.feeOracle p).gasPrice⟩ :=
  feeData_override_persistent extOK configuredState sessionState sessionHandle 84532 rfl

/-- A successful decode makes the rebuild succeed: the new state carries
the decoded configuration, the fresh four-provider table, and a bumped
allocation counter. -/
theorem updateConfigFromURL_success (url : String) (s : ServerState) (cfg : Config)
    (h : parseConfigFromURL url = some cfg)
    (hk : jsTruthy cfg.INFURA_API_KEY = true) :
    updateConfigFromURL url s =
      { globalConfig := cfg, PROVIDERS := providersTable cfg s.nextHandle,
        nextHandle := s.nextHandle + 4 } := by
  unfold updateConfigFromURL
  simp only [h]
  unfold createProviders
  rw [if_neg (by simp [hk])]

/-- Every handle id allocated by `providersTable` lies in the four-slot
window starting at the allocation counter. -/
theorem providersTable_handleId_range (cfg : Config) (n : Nat) :
    ∀ kp ∈ providersTable cfg n, n ≤ kp.2.handleId ∧ kp.2.handleId < n + 4 := by
  intro kp hkp
  simp only [providersTable, List.mem_cons, List.not_mem_nil, or_false] at hkp
  rcases hkp with rfl | rfl | rfl | rfl <;> constructor <;> simp

/-- C8: a successful registry build maps exactly the four static network
ids 84532, 8453, 137, 690 (one connection each); a second successful
rebuild again maps exactly those ids, and none of its connection
handles is one of the first build's handles. -/
theorem registry_rebuild_complete_and_fresh (url1 url2 : String) (s : ServerState)
    (c1 c2 : Config) (h1 : parseConfigFromURL url1 = some c1)
    (h2 : parseConfigFromURL url2 = some c2) :
    (updateConfigFromURL url1 s).PROVIDERS.map Prod.fst = [84532, 8453, 137, 690] ∧
    (updateConfigFromURL url2 (updateConfigFromURL url1 s)).PROVIDERS.map Prod.fst =
      [84532, 8453, 137, 690] ∧
    ∀ kp ∈ (updateConfigFromURL url1 s).PROVIDERS,
      ∀ kq ∈ (updateConfigFromURL url2 (updateConfigFromURL url1 s)).PROVIDERS,
        kp.2.handleId ≠ kq.2.handleId := by
  have hk1 := (parseConfigFromURL_some_truthy url1 c1 h1).2
  have hk2 := (parseConfigFromURL_some_truthy url2 c2 h2).2
  have e1 := updateConfigFromURL_success url1 s c1 h1 hk1
  have e2 := updateConfigFromURL_success url2 (updateConfigFromURL url1 s) c2 h2 hk2
  refine ⟨by rw [e1]; rfl, by rw [e2]; rfl, fun kp hkp kq hkq => ?_⟩
  rw [e1] at hkp
  have hn : (updateConfigFromURL url1 s).nextHandle = s.nextHandle + 4 := by rw [e1]
  rw [e2, hn] at hkq
  have hr1 := providersTable_handleId_range c1 s.nextHandle kp hkp
  have hr2 := providersTable_handleId_range c2 (s.nextHandle + 4) kq hkq
  omega

/-- Witness for C8: configuring twice from the same well-formed source
yields the full four-network registry each time, with disjoint handle
ids. -/
theorem registry_rebuild_complete_and_fresh_witness :
    (updateConfigFromURL goodConfigURL initialState).PROVIDERS.map Prod.fst =
      [84532, 8453, 137, 690] ∧
    (updateConfigFromURL goodConfigURL
        (updateConfigFromURL goodConfigURL initialState)).PROVIDERS.map Prod.fst =
      [84532, 8453, 137, 690] ∧
    ∀ kp ∈ (updateConfigFromURL goodConfigURL initialState).PROVIDERS,
      ∀ kq ∈ (updateConfigFromURL goodConfigURL
          (updateConfigFromURL goodConfigURL initialState)).PROVIDERS,
        kp.2.handleId ≠ kq.2.handleId :=
  registry_rebuild_complete_and_fresh goodConfigURL goodConfigURL initialState
    ⟨some (Json.str "k"), some (Json.str "a")⟩
    ⟨some (Json.str "k"), some (Json.str "a")⟩ rfl rfl

/-- C10's invariant: once both configuration fields are truthy, the
registry maps exactly the four static network ids — never empty, never
partial. -/
def registryComplete (s : ServerState) : Prop :=
  jsTruthy s.globalConfig.WALLET_PRIVATE_KEY = true ∧
    jsTruthy s.globalConfig.INFURA_API_KEY = true →
    s.PROVIDERS.map Prod.fst = [84532, 8453, 137, 690]

/-- `updateConfigFromURL` preserves the registry invariant: a failed
decode changes nothing, and a successful decode (whose validation
guarantees a truthy API key, so the provider build cannot hit its
empty-key branch) installs the full table. -/
theorem registryComplete_update (url : String) (s : ServerState)
    (ih : registryComplete s) : registryComplete (updateConfigFromURL url s) := by
  cases hp : parseConfigFromURL url with
  | none =>
    have hs : updateConfigFromURL url s = s := by
      unfold updateConfigFromURL
      rw [hp]
    rw [hs]
    exact ih
  | some cfg =>
    intro _
    rw [updateConfigFromURL_success url s cfg hp (parseConfigFromURL_some_truthy url cfg hp).2]
    rfl

/-- C10: in every state reachable from module load by reconfigurations
and tool invocations, whenever `globalConfig` has both
`WALLET_PRIVATE_KEY` and `INFURA_API_KEY` truthy the provider registry
contains entries for exactly the four network ids 84532, 8453, 137,
690. -/
theorem reachable_registryComplete (s : ServerState) (h : Reachable s) :
    registryComplete s := by
  induction h with
  | init => intro hc; exact absurd hc.1 (by decide)
  | @step t t' hr hstep ih =>
    cases hstep with
    | reconfig url => exact registryComplete_update url t ih
    | configureTool url => exact registryComplete_update url t ih
    | session ext networkId =>
      intro hc
      have hshape := createSDK_state_shape ext t networkId
      rw [hshape.2]
      apply ih
      rw [hshape.1] at hc
      exact hc

/-- Witness for C10: the state reached by one successful startup
configuration satisfies the invariant — its registry maps exactly the
four ids. -/
theorem reachable_registryComplete_witness :
    configuredState.PROVIDERS.map Prod.fst = [84532, 8453, 137, 690] :=
  reachable_registryComplete configuredState
    (Reachable.step Reachable.init (Step.reconfig goodConfigURL initialState))
    (by decide)
